import Mathlib

/-!
# Shallow embedding of the YouTube ad-data ETL transformation stage

This file embeds the transformation engine of `src/transform.py`
(`DataTransformer.clean_data`, `DataTransformer.calculate_metrics`,
`DataTransformer.add_features`) as executable Lean definitions and proves
properties of the embedded functions.

Modelling conventions:
* pandas float columns are modelled over `ℚ` with exact arithmetic; a float
  cell that may be missing (`NaN`) is an `Option ℚ`.
* `pd.to_datetime` parsing of the raw `published_at` string is modelled by
  storing the parse outcome directly: `Option ℤ` (seconds), `none` meaning
  the string is unparsable, in which case `pd.to_datetime` raises.
* pandas `.round` is round-half-to-even (`numpy.rint`), modelled exactly on
  `ℚ` by `roundHE` / `roundTo`.
* a float division is modelled by `qdiv`, which returns `none` when the
  denominator is zero (the non-finite outcome `inf`/`NaN` of float division
  by zero); a computation returning `some` therefore produces no
  infinity/NaN at its division points.
* `pd.cut` with `bins=[0, b1, ..., np.inf]` and default `right=True` places
  a value `v` in the left-open right-closed interval `(lo, hi]`; a value
  outside every bin (here `v ≤ 0`) gets `NaN`, modelled as `none`.
-/

/-- One raw row as produced by the extractor and loaded from CSV.
Numeric counters are `Option ℚ` (`none` = missing/NaN); `published_at`
holds the outcome of timestamp parsing (`none` = unparsable string). -/
structure RawRecord where
  video_id : String
  channel_id : String
  title : String
  channel_title : String
  category_id : Nat
  category_name : String
  published_at : Option Int
  duration_seconds : Option ℚ
  view_count : Option ℚ
  like_count : Option ℚ
  comment_count : Option ℚ
  deriving DecidableEq, Repr

/-- A row of the cleaned table: duplicates removed, counters filled,
non-positive durations dropped, timestamp parsed. -/
structure CleanRecord where
  video_id : String
  channel_id : String
  title : String
  channel_title : String
  category_id : Nat
  category_name : String
  published_at : Int
  duration_seconds : ℚ
  view_count : ℚ
  like_count : ℚ
  comment_count : ℚ
  deriving DecidableEq, Repr

/-- Error raised by the cleaning stage: `pd.to_datetime` fails on an
unparsable `published_at`. -/
inductive CleanError where
  | malformedTimestamp
  deriving DecidableEq, Repr

/-- `df.drop_duplicates(subset=['video_id'])`: keep the first occurrence of
each `video_id`, preserving order. `seen` accumulates ids already kept. -/
def dropDuplicates : List RawRecord → List String → List RawRecord
  | [], _ => []
  | r :: rs, seen =>
      if r.video_id ∈ seen then dropDuplicates rs seen
      else r :: dropDuplicates rs (r.video_id :: seen)

/-- `df[numeric_cols].fillna(0)` for `view_count`, `like_count`,
`comment_count`. -/
def fillCounters (r : RawRecord) : RawRecord :=
  { r with
    view_count := some (r.view_count.getD 0)
    like_count := some (r.like_count.getD 0)
    comment_count := some (r.comment_count.getD 0) }

/-- The row filter `df[df['duration_seconds'] > 0]`: a missing duration
compares as `False` in pandas, so only rows with a present, strictly
positive duration pass. -/
def durPositive (r : RawRecord) : Bool :=
  match r.duration_seconds with
  | some d => decide (0 < d)
  | none => false

/-- The cleaned table before timestamp parsing: deduplicated, counters
filled, non-positive durations dropped (lines 32-35 of transform.py). -/
def cleanFiltered (raws : List RawRecord) : List RawRecord :=
  ((dropDuplicates raws []).map fillCounters).filter durPositive

/-- Convert one filtered row to a `CleanRecord`; fails (`none`) when
`published_at` is unparsable, which models `pd.to_datetime` raising. -/
def toClean (r : RawRecord) : Option CleanRecord :=
  match r.published_at, r.duration_seconds with
  | some t, some d =>
      some { video_id := r.video_id, channel_id := r.channel_id,
             title := r.title, channel_title := r.channel_title,
             category_id := r.category_id, category_name := r.category_name,
             published_at := t, duration_seconds := d,
             view_count := r.view_count.getD 0,
             like_count := r.like_count.getD 0,
             comment_count := r.comment_count.getD 0 }
  | _, _ => none

/-- Apply a fallible per-row function to every row; the whole pass fails as
soon as any row fails (as a raised exception does in a column operation). -/
def mapRows {α β : Type} (f : α → Option β) : List α → Option (List β)
  | [] => some []
  | a :: l =>
      match f a, mapRows f l with
      | some b, some bs => some (b :: bs)
      | _, _ => none

/-- `DataTransformer.clean_data`: dedup, fill counters, drop non-positive
durations, then parse every remaining `published_at`; any unparsable
timestamp makes the whole call raise. -/
def clean_data (raws : List RawRecord) : Except CleanError (List CleanRecord) :=
  match mapRows toClean (cleanFiltered raws) with
  | some cs => .ok cs
  | none => .error .malformedTimestamp

/-- Round half to even (`numpy.rint` / pandas `.round()`), exactly on `ℚ`. -/
def roundHE (q : ℚ) : ℤ :=
  let f := ⌊q⌋
  let r := q - f
  if r < 1/2 then f
  else if 1/2 < r then f + 1
  else if f % 2 = 0 then f else f + 1

/-- pandas `.round(k)`: round half to even at `k` decimal places. -/
def roundTo (q : ℚ) (k : ℕ) : ℚ :=
  (roundHE (q * 10 ^ k) : ℚ) / 10 ^ k

/-- Guarded division: `none` models the non-finite float result when the
denominator is zero. -/
def qdiv (a b : ℚ) : Option ℚ :=
  if b = 0 then none else some (a / b)

/-- The `category_rates` dict literal of `calculate_metrics`. -/
def category_rates (c : String) : Option ℚ :=
  if c = "Music" then some (15/100)
  else if c = "Gaming" then some (25/100)
  else if c = "People & Blogs" then some (22/100)
  else if c = "Entertainment" then some (30/100)
  else if c = "News & Politics" then some (35/100)
  else if c = "Sports" then some (32/100)
  else if c = "Science & Technology" then some (22/100)
  else none

/-- `pd.cut(view_count, bins=[0, 1e4, 1e5, 1e6, 1e7, inf], labels=...)`
with the default `right=True`: left-open right-closed bins; values outside
every bin (v ≤ 0) get `NaN` (`none`). -/
def channel_tier_of (v : ℚ) : Option String :=
  if 0 < v ∧ v ≤ 10000 then some "Micro"
  else if 10000 < v ∧ v ≤ 100000 then some "Small"
  else if 100000 < v ∧ v ≤ 1000000 then some "Medium"
  else if 1000000 < v ∧ v ≤ 10000000 then some "Large"
  else if 10000000 < v then some "Enterprise"
  else none

/-- `.astype(str)` on the categorical tier column: `NaN` prints as "nan". -/
def tierStr (o : Option String) : String := o.getD "nan"

/-- The `tier_multipliers` dict literal of `calculate_metrics`. -/
def tier_multipliers (t : String) : Option ℚ :=
  if t = "Micro" then some (12/10)
  else if t = "Small" then some (11/10)
  else if t = "Medium" then some 1
  else if t = "Large" then some (9/10)
  else if t = "Enterprise" then some (8/10)
  else none

/-- The derived columns `calculate_metrics` adds to one row, alongside the
unchanged original row (`base`). -/
structure ProcessedRecord where
  base : CleanRecord
  duration_minutes : ℚ
  base_ad_rate : ℚ
  channel_tier : String
  tier_multiplier : ℚ
  ad_density : ℚ
  estimated_ads : ℚ
  ad_time_seconds : ℚ
  ad_ratio : ℚ
  engagement_rate : ℚ
  revenue_pressure : ℚ
  deriving DecidableEq, Repr

/-- The per-row body of `DataTransformer.calculate_metrics` (lines 44-86 of
transform.py); every formula is a function of the row's own fields plus the
static lookup tables. Returns `none` only when a division has a zero
denominator (a non-finite float result). -/
def calc_record (r : CleanRecord) : Option ProcessedRecord :=
  let duration_minutes := r.duration_seconds / 60
  let base_ad_rate := (category_rates r.category_name).getD (25/100)
  let channel_tier := tierStr (channel_tier_of r.view_count)
  let tier_multiplier := (tier_multipliers channel_tier).getD 1
  let ad_density := base_ad_rate * tier_multiplier
  let estimated_ads : ℚ := (roundHE (max 1 (ad_density * duration_minutes)) : ℚ)
  let ad_time_seconds := estimated_ads * 20
  match qdiv ad_time_seconds r.duration_seconds with
  | none => none
  | some rawRatio =>
    let ad_ratio := roundTo (rawRatio * 100) 2
    match qdiv (r.like_count + r.comment_count)
        (if r.view_count = 0 then 1 else r.view_count) with
    | none => none
    | some rawEng =>
      let engagement_rate := roundTo (rawEng * 100) 3
      let revenue_pressure :=
        roundTo (ad_density * (5/10) + ad_ratio * (1/100) * (3/10)
          + (r.view_count / 1000000) * (2/10)) 3
      some { base := r, duration_minutes := duration_minutes,
             base_ad_rate := base_ad_rate, channel_tier := channel_tier,
             tier_multiplier := tier_multiplier, ad_density := ad_density,
             estimated_ads := estimated_ads,
             ad_time_seconds := ad_time_seconds, ad_ratio := ad_ratio,
             engagement_rate := engagement_rate,
             revenue_pressure := revenue_pressure }

/-- `DataTransformer.calculate_metrics` over the whole cleaned table:
each row independently. -/
def calculate_metrics (cs : List CleanRecord) : Option (List ProcessedRecord) :=
  mapRows calc_record cs

/-- `pd.cut(duration_minutes, bins=[0, 5, 15, 30, inf], labels=...)` with
the default `right=True`: left-open right-closed bins. -/
def duration_category_of (m : ℚ) : Option String :=
  if 0 < m ∧ m ≤ 5 then some "Short"
  else if 5 < m ∧ m ≤ 15 then some "Medium"
  else if 15 < m ∧ m ≤ 30 then some "Long"
  else if 30 < m then some "Very Long"
  else none

/-- The columns `add_features` adds to one processed row. -/
structure FeaturedRecord where
  base : ProcessedRecord
  age_days : ℤ
  duration_category : Option String
  views_per_day : ℚ
  deriving DecidableEq, Repr

/-- The per-row body of `DataTransformer.add_features`; `now` is the single
`pd.Timestamp.now()` snapshot (seconds) taken once per call. `.dt.days` of
a timedelta is floor division by 86400 seconds. -/
def feature_record (now : Int) (p : ProcessedRecord) : Option FeaturedRecord :=
  let age_days : ℤ := Int.fdiv (now - p.base.published_at) 86400
  let duration_category := duration_category_of p.duration_minutes
  match qdiv p.base.view_count
      (if age_days = 0 then 1 else (age_days : ℚ)) with
  | none => none
  | some rawVpd =>
      some { base := p, age_days := age_days,
             duration_category := duration_category,
             views_per_day := (roundHE rawVpd : ℚ) }

/-- `DataTransformer.add_features` over the whole processed table, with one
fixed `now` snapshot for the batch. -/
def add_features (now : Int) (ps : List ProcessedRecord) : Option (List FeaturedRecord) :=
  mapRows (feature_record now) ps

/-- The transformer object's mutable state: `self.data` (the cleaned table
when `calculate_metrics` runs) and `self.processed`. -/
structure TransformerState where
  data : List CleanRecord
  processed : Option (List ProcessedRecord)

/-- One invocation of `calculate_metrics` on the object: reads `self.data`,
writes `self.processed`, returns the new table. `self.data` is untouched. -/
def calculate_metrics_run (s : TransformerState) :
    TransformerState × Option (List ProcessedRecord) :=
  let out := calculate_metrics s.data
  ({ s with processed := out }, out)

/-- The concrete cleaned record of §8 of the spec:
`duration_seconds=180, view_count=1000, category_name='Music'`. -/
def c4rec : CleanRecord :=
  { video_id := "v1", channel_id := "c1", title := "t", channel_title := "ct",
    category_id := 10, category_name := "Music", published_at := 0,
    duration_seconds := 180, view_count := 1000, like_count := 0,
    comment_count := 0 }

/-- The processed record `calculate_metrics` derives from `c4rec`. -/
def c4out : ProcessedRecord :=
  { base := c4rec, duration_minutes := 3, base_ad_rate := 3/20,
    channel_tier := "Micro", tier_multiplier := 6/5, ad_density := 9/50,
    estimated_ads := 1, ad_time_seconds := 20, ad_ratio := 1111/100,
    engagement_rate := 0, revenue_pressure := 31/250 }

/-- A cleaned record with `view_count = 0`, exercising the guarded
engagement denominator. -/
def c6rec : CleanRecord :=
  { video_id := "v6", channel_id := "c6", title := "t", channel_title := "ct",
    category_id := 20, category_name := "Gaming", published_at := 0,
    duration_seconds := 60, view_count := 0, like_count := 3,
    comment_count := 1 }

/-- A well-formed raw record: parseable timestamp, positive duration. -/
def rawGood : RawRecord :=
  { video_id := "v1", channel_id := "c", title := "t", channel_title := "ct",
    category_id := 1, category_name := "Music", published_at := some 0,
    duration_seconds := some 100, view_count := some 5, like_count := some 2,
    comment_count := some 1 }

/-- A raw record whose `published_at` string is unparsable
(`published_at = none`) but which passes the duration filter. -/
def rawBad : RawRecord :=
  { video_id := "v2", channel_id := "c", title := "t", channel_title := "ct",
    category_id := 1, category_name := "Music", published_at := none,
    duration_seconds := some 50, view_count := none, like_count := none,
    comment_count := none }

/-- The cleaned record `clean_data` derives from `rawGood`. -/
def cleanGood : CleanRecord :=
  { video_id := "v1", channel_id := "c", title := "t", channel_title := "ct",
    category_id := 1, category_name := "Music", published_at := 0,
    duration_seconds := 100, view_count := 5, like_count := 2,
    comment_count := 1 }

/-- Column formula `duration_seconds / 60`. -/
def duration_minutes_of (r : CleanRecord) : ℚ := r.duration_seconds / 60

/-- Column formula `category_name.map(category_rates).fillna(0.25)`. -/
def base_ad_rate_of (r : CleanRecord) : ℚ :=
  (category_rates r.category_name).getD (25/100)

/-- Column formula for `channel_tier` after `astype(str)`. -/
def channel_tier_col (r : CleanRecord) : String :=
  tierStr (channel_tier_of r.view_count)

/-- Column formula `channel_tier.map(tier_multipliers).fillna(1.0)`. -/
def tier_multiplier_of (r : CleanRecord) : ℚ :=
  (tier_multipliers (channel_tier_col r)).getD 1

/-- Column formula `base_ad_rate * tier_multiplier`. -/
def ad_density_of (r : CleanRecord) : ℚ :=
  base_ad_rate_of r * tier_multiplier_of r

/-- Column formula `(ad_density * duration_minutes).clip(lower=1).round()`. -/
def estimated_ads_of (r : CleanRecord) : ℚ :=
  (roundHE (max 1 (ad_density_of r * duration_minutes_of r)) : ℚ)

/-- Column formula `estimated_ads * 20`. -/
def ad_time_seconds_of (r : CleanRecord) : ℚ := estimated_ads_of r * 20

/-- Column formula `(ad_time_seconds / duration_seconds * 100).round(2)`. -/
def ad_ratio_of (r : CleanRecord) : ℚ :=
  roundTo (ad_time_seconds_of r / r.duration_seconds * 100) 2

/-- Column formula
`((like_count + comment_count) / view_count.replace(0, 1) * 100).round(3)`. -/
def engagement_rate_of (r : CleanRecord) : ℚ :=
  roundTo ((r.like_count + r.comment_count) /
    (if r.view_count = 0 then 1 else r.view_count) * 100) 3

/-- Column formula
`(ad_density*0.5 + ad_ratio*0.01*0.3 + view_count/1e6*0.2).round(3)`. -/
def revenue_pressure_of (r : CleanRecord) : ℚ :=
  roundTo (ad_density_of r * (5/10) + ad_ratio_of r * (1/100) * (3/10)
    + r.view_count / 1000000 * (2/10)) 3

/-- A second well-formed raw record, distinct from `rawGood`. -/
def rawGood2 : RawRecord :=
  { video_id := "v4", channel_id := "c4", title := "t4",
    channel_title := "ct4", category_id := 2, category_name := "Gaming",
    published_at := some 86400, duration_seconds := some 75,
    view_count := some 10, like_count := some 0, comment_count := some 0 }

/-- A raw record whose `duration_seconds` cell is missing (`NaN`). -/
def rawNoDur : RawRecord :=
  { video_id := "v3", channel_id := "c3", title := "t3",
    channel_title := "ct3", category_id := 2, category_name := "Gaming",
    published_at := some 0, duration_seconds := none,
    view_count := some 7, like_count := some 1, comment_count := some 1 }

/-- The cleaned record `clean_data` derives from `rawGood2`. -/
def cleanGood2 : CleanRecord :=
  { video_id := "v4", channel_id := "c4", title := "t4",
    channel_title := "ct4", category_id := 2, category_name := "Gaming",
    published_at := 86400, duration_seconds := 75, view_count := 10,
    like_count := 0, comment_count := 0 }

/-- `mapRows` fails when any row fails. -/
lemma mapRows_eq_none {α β : Type} (f : α → Option β) :
    ∀ (l : List α) (a : α), a ∈ l → f a = none → mapRows f l = none := by
  intro l
  induction l with
  | nil => intro a ha _; simp at ha
  | cons x xs ih =>
    intro a ha hfa
    rcases List.mem_cons.mp ha with rfl | ha
    · simp [mapRows, hfa]
    · cases hfx : f x with
      | none => simp [mapRows, hfx]
      | some y => simp [mapRows, hfx, ih a ha hfa]

/-- Every row of a successful `mapRows` output is the image of an input
row. -/
lemma mapRows_mem {α β : Type} (f : α → Option β) :
    ∀ (l : List α) (res : List β), mapRows f l = some res →
      ∀ b ∈ res, ∃ a ∈ l, f a = some b := by
  intro l
  induction l with
  | nil =>
    intro res h b hb
    simp [mapRows] at h
    subst h
    simp at hb
  | cons x xs ih =>
    intro res h b hb
    cases hfx : f x with
    | none => simp [mapRows, hfx] at h
    | some y =>
      cases hxs : mapRows f xs with
      | none => simp [mapRows, hfx, hxs] at h
      | some ys =>
        simp [mapRows, hfx, hxs] at h
        subst h
        rcases List.mem_cons.mp hb with rfl | hb
        · exact ⟨x, by simp, hfx⟩
        · obtain ⟨a, ha, hab⟩ := ih ys hxs b hb
          exact ⟨a, by simp [ha], hab⟩

/-- A successful `mapRows` whose per-row function is inverted by `g`
reconstructs the input list. -/
lemma mapRows_map_inv {α β : Type} (f : α → Option β) (g : β → α)
    (hg : ∀ a b, f a = some b → g b = a) :
    ∀ (l : List α) (res : List β), mapRows f l = some res →
      res.map g = l := by
  intro l
  induction l with
  | nil => intro res h; simp [mapRows] at h; subst h; simp
  | cons x xs ih =>
    intro res h
    cases hfx : f x with
    | none => simp [mapRows, hfx] at h
    | some y =>
      cases hxs : mapRows f xs with
      | none => simp [mapRows, hfx, hxs] at h
      | some ys =>
        simp [mapRows, hfx, hxs] at h
        subst h
        simp [hg x y hfx, ih ys hxs]

/-- `mapRows` succeeds when every row succeeds. -/
lemma mapRows_isSome {α β : Type} (f : α → Option β)
    (hf : ∀ a, (f a).isSome = true) :
    ∀ l : List α, (mapRows f l).isSome = true := by
  intro l
  induction l with
  | nil => simp [mapRows]
  | cons x xs ih =>
    cases hfx : f x with
    | none => have := hf x; simp [hfx] at this
    | some y =>
      cases hxs : mapRows f xs with
      | none => simp [hxs] at ih
      | some ys => simp [mapRows, hfx, hxs]

/-- `dropDuplicates` only keeps rows of the input. -/
lemma dropDuplicates_subset :
    ∀ (l : List RawRecord) (seen : List String) (r : RawRecord),
      r ∈ dropDuplicates l seen → r ∈ l := by
  intro l
  induction l with
  | nil => intro seen r h; simp [dropDuplicates] at h
  | cons x xs ih =>
    intro seen r h
    by_cases hx : x.video_id ∈ seen
    · simp [dropDuplicates, hx] at h
      exact List.mem_cons_of_mem x (ih seen r h)
    · simp [dropDuplicates, hx] at h
      rcases h with rfl | h
      · exact List.mem_cons_self _ _
      · exact List.mem_cons_of_mem x (ih _ r h)

lemma toClean_duration (r : RawRecord) (c : CleanRecord)
    (h : toClean r = some c) :
    r.duration_seconds = some c.duration_seconds := by
  rcases hp : r.published_at with _ | t <;> rcases hd : r.duration_seconds with _ | d <;>
    simp [toClean, hp, hd] at h
  rw [← h]

lemma toClean_none (r : RawRecord) (h : r.published_at = none) :
    toClean r = none := by
  rcases hd : r.duration_seconds with _ | d <;> simp [toClean, h, hd]

lemma calc_record_fields (r : CleanRecord) (p : ProcessedRecord)
    (h : calc_record r = some p) :
    p.base = r ∧
    p.channel_tier = tierStr (channel_tier_of r.view_count) ∧
    ∃ x : ℚ, p.estimated_ads = (roundHE (max 1 x) : ℚ) := by
  simp only [calc_record] at h
  split at h
  · cases h
  · split at h
    · cases h
    · injection h with h
      subst h
      exact ⟨rfl, rfl, ⟨_, rfl⟩⟩

lemma feature_record_fields (now : Int) (p : ProcessedRecord)
    (f : FeaturedRecord) (h : feature_record now p = some f) :
    f.base = p ∧
    f.duration_category = duration_category_of p.duration_minutes := by
  simp only [feature_record] at h
  split at h
  · cases h
  · injection h with h
    subst h
    exact ⟨rfl, rfl⟩

/-- Closed form of `calc_record`: on a record with non-zero duration it
succeeds and yields exactly the column formulas. -/
lemma calc_record_eq (r : CleanRecord) (hd : r.duration_seconds ≠ 0) :
    calc_record r = some
      { base := r, duration_minutes := duration_minutes_of r,
        base_ad_rate := base_ad_rate_of r,
        channel_tier := channel_tier_col r,
        tier_multiplier := tier_multiplier_of r,
        ad_density := ad_density_of r,
        estimated_ads := estimated_ads_of r,
        ad_time_seconds := ad_time_seconds_of r,
        ad_ratio := ad_ratio_of r,
        engagement_rate := engagement_rate_of r,
        revenue_pressure := revenue_pressure_of r } := by
  have hden : (if r.view_count = 0 then (1:ℚ) else r.view_count) ≠ 0 := by
    split_ifs with hv
    · norm_num
    · exact hv
  simp only [calc_record, qdiv, if_neg hd, if_neg hden,
    duration_minutes_of, base_ad_rate_of, channel_tier_col,
    tier_multiplier_of, ad_density_of, estimated_ads_of,
    ad_time_seconds_of, ad_ratio_of, engagement_rate_of,
    revenue_pressure_of]

/-- `calc_record` on the §8 record evaluates to `c4out`. -/
lemma calc_record_c4 : calc_record c4rec = some c4out := by
  rw [calc_record_eq c4rec (by norm_num [c4rec])]
  norm_num [c4rec, c4out, duration_minutes_of, base_ad_rate_of,
    channel_tier_col, tier_multiplier_of, ad_density_of, estimated_ads_of,
    ad_time_seconds_of, ad_ratio_of, engagement_rate_of,
    revenue_pressure_of, category_rates, channel_tier_of, tierStr,
    tier_multipliers, roundTo, roundHE]

/-- Lower bound for round-half-even: it never rounds below the floor. -/
lemma roundHE_ge_floor (q : ℚ) : ⌊q⌋ ≤ roundHE q := by
  simp only [roundHE]
  split_ifs <;> omega

/-- C1 counterexample: on the code, `pd.cut` bins are right-closed, so a
`view_count` of exactly 10,000 is Micro (not Small) and `view_count = 0`
falls outside every bin, getting the string "nan" rather than Micro. -/
theorem channel_tier_boundary_cex :
    tierStr (channel_tier_of 10000) = "Micro" ∧
    tierStr (channel_tier_of 10000) ≠ "Small" ∧
    tierStr (channel_tier_of 0) ≠ "Micro" := by decide

/-- C1 (amended): `channel_tier` is a function of `view_count` with
left-open right-closed bins (0,10k], (10k,100k], (100k,1M], (1M,10M],
(10M,∞): every strictly positive view count gets exactly one of the five
tiers, a view count exactly at a boundary gets the lower tier, and
`view_count = 0` falls outside every bin (tier `none`, shown as "nan");
`calculate_metrics` assigns exactly this tier to every record. -/
theorem channel_tier_total_boundaries :
    (∀ v : ℚ, 0 < v → tierStr (channel_tier_of v) ∈
      (["Micro", "Small", "Medium", "Large", "Enterprise"] : List String)) ∧
    channel_tier_of 10000 = some "Micro" ∧
    channel_tier_of 100000 = some "Small" ∧
    channel_tier_of 1000000 = some "Medium" ∧
    channel_tier_of 10000000 = some "Large" ∧
    channel_tier_of 0 = none ∧
    (∀ r p, calc_record r = some p →
      p.channel_tier = tierStr (channel_tier_of r.view_count)) := by
  refine ⟨?_, by decide, by decide, by decide, by decide, by decide,
    fun r p h => (calc_record_fields r p h).2.1⟩
  intro v hv
  unfold channel_tier_of tierStr
  split_ifs with h1 h2 h3 h4 h5
  · simp
  · simp
  · simp
  · simp
  · simp
  · exfalso
    push_neg at h1 h2 h3 h4
    exact h5 (h4 (h3 (h2 (h1 hv))))

/-- C1 witness: a concrete positive view count gets one of the five tiers. -/
theorem channel_tier_total_boundaries_witness :
    tierStr (channel_tier_of 5) ∈
      (["Micro", "Small", "Medium", "Large", "Enterprise"] : List String) :=
  channel_tier_total_boundaries.1 5 (by norm_num)

/-- C2 counterexample: a table holding one good record and one record whose
`published_at` is unparsable makes `clean_data` raise, aborting the whole
run instead of excluding the single bad record. -/
theorem clean_data_abort_cex :
    clean_data [rawGood, rawBad] = .error CleanError.malformedTimestamp := by
  rfl

/-- C2 (amended): when a record that survives deduplication and the
duration filter has an unparsable `published_at`, `clean_data` raises
`MalformedTimestampError` and the whole run aborts; the bad record is not
excluded individually. -/
theorem malformed_timestamp_aborts (raws : List RawRecord) (r : RawRecord)
    (hmem : r ∈ cleanFiltered raws) (hbad : r.published_at = none) :
    clean_data raws = .error CleanError.malformedTimestamp := by
  unfold clean_data
  rw [mapRows_eq_none toClean (cleanFiltered raws) r hmem (toClean_none r hbad)]

/-- C2 witness: the abort theorem applied to a concrete one-record table. -/
theorem malformed_timestamp_aborts_witness :
    clean_data [rawBad] = .error CleanError.malformedTimestamp :=
  malformed_timestamp_aborts [rawBad] (fillCounters rawBad) (by decide) (by rfl)

/-- C3 counterexample: on the code, `pd.cut` bins are right-closed, so a
`duration_minutes` of exactly 5 is Short, not Medium. -/
theorem duration_category_boundary_cex :
    duration_category_of 5 = some "Short" ∧
    duration_category_of 5 ≠ some "Medium" := by decide

/-- C3 (amended): `duration_category` is determined from `duration_minutes`
by left-open right-closed bins (0,5], (5,15], (15,30], (30,∞) mapping to
Short, Medium, Long, Very Long; a record with `duration_minutes` exactly
5, 15 or 30 falls in the lower category, and `add_features` assigns exactly
this category to every record. -/
theorem duration_category_bins :
    (∀ m : ℚ, 0 < m → (duration_category_of m).getD "" ∈
      (["Short", "Medium", "Long", "Very Long"] : List String)) ∧
    duration_category_of 5 = some "Short" ∧
    duration_category_of 15 = some "Medium" ∧
    duration_category_of 30 = some "Long" ∧
    (∀ (now : Int) (p : ProcessedRecord) (f : FeaturedRecord),
      feature_record now p = some f →
      f.duration_category = duration_category_of p.duration_minutes) := by
  refine ⟨?_, by decide, by decide, by decide,
    fun now p f h => (feature_record_fields now p f h).2⟩
  intro m hm
  unfold duration_category_of
  split_ifs with h1 h2 h3 h4
  · simp
  · simp
  · simp
  · simp
  · exfalso
    push_neg at h1 h2 h3
    exact h4 (h3 (h2 (h1 hm)))

/-- C3 witness: a concrete positive duration gets one of the four
categories. -/
theorem duration_category_bins_witness :
    (duration_category_of 7).getD "" ∈
      (["Short", "Medium", "Long", "Very Long"] : List String) :=
  duration_category_bins.1 7 (by norm_num)

/-- C4 counterexample: for the §8 record ('Music', 180 s, 1000 views) the
rate table maps Music to 0.15, so `base_ad_rate` is 0.15, not the claimed
default 0.25. -/
theorem spot_check_music_cex :
    (calc_record c4rec).map ProcessedRecord.base_ad_rate = some (15/100) ∧
    ((15 : ℚ)/100) ≠ 25/100 := by
  constructor
  · rw [calc_record_c4]
    norm_num [c4out]
  · norm_num

/-- C4 (amended): for the cleaned record with `duration_seconds=180`,
`view_count=1000`, `category_name='Music'`, `calculate_metrics` yields
`base_ad_rate=0.15` (Music is in the rate table), `channel_tier='Micro'`,
`tier_multiplier=1.2`, `ad_density=0.18`, `duration_minutes=3.0`,
`estimated_ads=1`, `ad_time_seconds=20`, `ad_ratio=11.11`. -/
theorem spot_check_music :
    calc_record c4rec = some c4out ∧
    c4out.base_ad_rate = 15/100 ∧ c4out.channel_tier = "Micro" ∧
    c4out.tier_multiplier = 12/10 ∧ c4out.ad_density = 18/100 ∧
    c4out.duration_minutes = 3 ∧ c4out.estimated_ads = 1 ∧
    c4out.ad_time_seconds = 20 ∧ c4out.ad_ratio = 1111/100 := by
  refine ⟨calc_record_c4, ?_, ?_, ?_, ?_, ?_, ?_, ?_, ?_⟩ <;> norm_num [c4out]

/-- C5: invoking `calculate_metrics` twice on the transformer (the second
call reads the state left by the first, whose `data` table is untouched)
returns the same output table and leaves the same `processed` state. -/
theorem calculate_metrics_idempotent (s : TransformerState) :
    (calculate_metrics_run (calculate_metrics_run s).1).2 =
      (calculate_metrics_run s).2 ∧
    (calculate_metrics_run (calculate_metrics_run s).1).1.processed =
      (calculate_metrics_run s).1.processed :=
  ⟨rfl, rfl⟩

/-- C6: every division in the derived-field formulas has a non-zero
denominator on cleaned records: the engagement denominator is 1 whenever
`view_count = 0`, `calc_record` is total on records with positive duration
(no division yields a non-finite value), and `add_features` is total on
every processed table. -/
theorem formulas_never_nonfinite :
    (∀ r : CleanRecord, 0 < r.duration_seconds →
      (calc_record r).isSome = true ∧
      (r.view_count = 0 →
        (calc_record r).map ProcessedRecord.engagement_rate =
          some (roundTo ((r.like_count + r.comment_count) / 1 * 100) 3))) ∧
    (∀ (now : Int) (ps : List ProcessedRecord),
      (add_features now ps).isSome = true) := by
  constructor
  · intro r hd
    rw [calc_record_eq r hd.ne']
    constructor
    · rfl
    · intro hv
      simp [engagement_rate_of, hv]
  · intro now ps
    apply mapRows_isSome
    intro p
    have hden : (if Int.fdiv (now - p.base.published_at) 86400 = 0 then (1:ℚ)
        else ((Int.fdiv (now - p.base.published_at) 86400 : ℤ) : ℚ)) ≠ 0 := by
      split_ifs with h
      · norm_num
      · exact_mod_cast h
    simp only [feature_record, qdiv, if_neg hden]
    rfl

/-- C6 witness: the totality theorem applied to a concrete record with
`view_count = 0`. -/
theorem formulas_never_nonfinite_witness :
    (calc_record c6rec).isSome = true ∧
    (calc_record c6rec).map ProcessedRecord.engagement_rate =
      some (roundTo ((c6rec.like_count + c6rec.comment_count) / 1 * 100) 3) ∧
    (add_features 0 []).isSome = true :=
  ⟨(formulas_never_nonfinite.1 c6rec (by norm_num [c6rec])).1,
   (formulas_never_nonfinite.1 c6rec (by norm_num [c6rec])).2 (by rfl),
   formulas_never_nonfinite.2 0 []⟩

/-- C7: every record produced by `calculate_metrics` has
`estimated_ads ≥ 1`, however small `ad_density * duration_minutes` is. -/
theorem estimated_ads_at_least_one (r : CleanRecord) (p : ProcessedRecord)
    (h : calc_record r = some p) : 1 ≤ p.estimated_ads := by
  obtain ⟨-, -, x, hx⟩ := calc_record_fields r p h
  rw [hx]
  have h1 : (1:ℤ) ≤ ⌊max 1 x⌋ := Int.le_floor.mpr (by exact_mod_cast le_max_left 1 x)
  have h2 := roundHE_ge_floor (max 1 x)
  exact_mod_cast h1.trans h2

/-- C7 witness: the lower bound at the §8 record. -/
theorem estimated_ads_at_least_one_witness : 1 ≤ c4out.estimated_ads :=
  estimated_ads_at_least_one c4rec c4out calc_record_c4

/-- C8: every record emitted by `clean_data` has a strictly positive
`duration_seconds`. -/
theorem cleaner_duration_positive (raws : List RawRecord)
    (out : List CleanRecord) (h : clean_data raws = .ok out) :
    ∀ c ∈ out, 0 < c.duration_seconds := by
  intro c hc
  unfold clean_data at h
  cases hm : mapRows toClean (cleanFiltered raws) with
  | none => rw [hm] at h; cases h
  | some cs =>
      rw [hm] at h
      injection h with h
      subst h
      obtain ⟨a, ha, hac⟩ := mapRows_mem toClean _ cs hm c hc
      have hd := toClean_duration a c hac
      have hpos : durPositive a = true := (List.mem_filter.mp ha).2
      unfold durPositive at hpos
      rw [hd] at hpos
      simpa using hpos

/-- C8 witness: the invariant at a concrete cleaned table. -/
theorem cleaner_duration_positive_witness : 0 < cleanGood.duration_seconds :=
  cleaner_duration_positive [rawGood] [cleanGood] (by rfl) cleanGood
    (by simp)

/-- C9: the enrichment stages only add derived columns: a successful
`calculate_metrics` keeps every original record unchanged inside `base`
(so projecting `base` out of its output returns the cleaned table), and a
successful `add_features` likewise returns its input table in `base`. -/
theorem stages_only_add_columns :
    (∀ (cs : List CleanRecord) (ps : List ProcessedRecord),
      calculate_metrics cs = some ps → ps.map ProcessedRecord.base = cs) ∧
    (∀ (now : Int) (ps : List ProcessedRecord) (fs : List FeaturedRecord),
      add_features now ps = some fs → fs.map FeaturedRecord.base = ps) := by
  constructor
  · intro cs ps h
    exact mapRows_map_inv calc_record ProcessedRecord.base
      (fun a b hb => (calc_record_fields a b hb).1) cs ps h
  · intro now ps fs h
    exact mapRows_map_inv (feature_record now) FeaturedRecord.base
      (fun a b hb => (feature_record_fields now a b hb).1) ps fs h

/-- C9 witness: the frame condition at a concrete one-record table. -/
theorem stages_only_add_columns_witness :
    [c4out].map ProcessedRecord.base = [c4rec] :=
  stages_only_add_columns.1 [c4rec] [c4out]
    (by simp [calculate_metrics, mapRows, calc_record_c4])

/-- C10: a record can only survive `clean_data` if its raw
`duration_seconds` was present (non-null) and strictly positive: every
cleaned record traces back to a raw record whose duration cell held
exactly its positive duration. -/
theorem missing_duration_never_survives (raws : List RawRecord)
    (out : List CleanRecord) (h : clean_data raws = .ok out) :
    ∀ c ∈ out, ∃ r ∈ raws, r.duration_seconds = some c.duration_seconds ∧
      0 < c.duration_seconds := by
  intro c hc
  unfold clean_data at h
  cases hm : mapRows toClean (cleanFiltered raws) with
  | none => rw [hm] at h; cases h
  | some cs =>
      rw [hm] at h
      injection h with h
      subst h
      obtain ⟨a, ha, hac⟩ := mapRows_mem toClean _ cs hm c hc
      have hd := toClean_duration a c hac
      have hmf := List.mem_filter.mp ha
      obtain ⟨r0, hr0, rfl⟩ := List.mem_map.mp hmf.1
      have hpos : durPositive (fillCounters r0) = true := hmf.2
      refine ⟨r0, dropDuplicates_subset raws [] r0 hr0, ?_, ?_⟩
      · have hfr : (fillCounters r0).duration_seconds = r0.duration_seconds := rfl
        rw [← hfr]
        exact hd
      · unfold durPositive at hpos
        rw [hd] at hpos
        simpa using hpos

/-- C10 witness: a table with one record lacking `duration_seconds` cleans
to just the well-formed record, whose origin had a positive duration. -/
theorem missing_duration_never_survives_witness :
    0 < cleanGood2.duration_seconds := by
  obtain ⟨r, -, -, hpos⟩ := missing_duration_never_survives
    [rawGood2, rawNoDur] [cleanGood2] (by rfl) cleanGood2 (by simp)
  exact hpos
